import Mathlib

/-!
Verification development for a small FastAPI document-generation service
(`app/main.py`).  The service lets a client upload a `.docx` template,
submit a JSON context, and download a rendered document, optionally
converted to PDF and bundled into a zip archive.

The embedding below is a shallow model of `app/main.py`:
* pure request/response handling is translated function-by-function;
* ambient effects (the clock, the external `soffice` converter, the JSON
  parser of the standard library, the form parser of the web framework)
  are passed in explicitly as parameters;
* the file system is an explicit `ServerState` value threaded through the
  handlers (template file, output directory, scratch directory).
-/

namespace App

/-- A JSON / Python value, as produced by `json.loads` or carried in a
request payload.  Objects are association lists (Python dicts have unique
keys; lookup takes the first match). -/
inductive JVal where
  | null
  | bool (b : Bool)
  | num (n : Int)
  | str (s : String)
  | arr (l : List JVal)
  | obj (l : List (String × JVal))
deriving Repr, BEq

/-- Python truthiness (`bool(x)`) for the values of `JVal`:
`None`, `False`, `0`, `""`, `[]`, `{}` are falsy, everything else truthy. -/
def truthy : JVal → Bool
  | .null => false
  | .bool b => b
  | .num n => n != 0
  | .str s => s != ""
  | .arr l => !l.isEmpty
  | .obj l => !l.isEmpty

/-- Membership test `x in {"on", True, "true"}` of `app/main.py` line 106,
under Python equality semantics (`True == 1`, strings compare by value,
values of other shapes are equal to none of the three members). -/
def inPdfFlagSet : JVal → Bool
  | .str s => s == "on" || s == "true"
  | .bool b => b
  | .num n => n == 1
  | _ => false

/-- One token of a document template as `docxtpl` sees it: literal text or
a `{{name}}` placeholder.  An uploaded template file is modelled by its
token sequence. -/
inductive Tok where
  | text (s : String)
  | hole (name : String)
deriving Repr, DecidableEq

/-- The placeholder names occurring in a template. -/
def holes : List Tok → List String
  | [] => []
  | .text _ :: rest => holes rest
  | .hole n :: rest => n :: holes rest

mutual
/-- Python `str(x)` as used when a placeholder value is written into the
rendered document.  Container values are joined without Python quoting
(no claim inspects rendered container values). -/
def pyStr : JVal → String
  | .null => "None"
  | .bool true => "True"
  | .bool false => "False"
  | .num n => toString n
  | .str s => s
  | .arr l => "[" ++ pyStrList l ++ "]"
  | .obj l => "\x7b" ++ pyStrPairs l ++ "\x7d"

/-- Comma-joined rendering of a list of values. -/
def pyStrList : List JVal → String
  | [] => ""
  | [v] => pyStr v
  | v :: rest => pyStr v ++ ", " ++ pyStrList rest

/-- Comma-joined rendering of the pairs of an object. -/
def pyStrPairs : List (String × JVal) → String
  | [] => ""
  | [(k, v)] => k ++ ": " ++ pyStr v
  | (k, v) :: rest => k ++ ": " ++ pyStr v ++ ", " ++ pyStrPairs rest
end

/-- Modelled from the spec: strict-undefined rendering by the external
templating engine (`jinja2` with `undefined=StrictUndefined`, fed by
`docxtpl`).  Substitutes each placeholder with the context value; a
placeholder absent from the context raises an undefined-variable error
instead of substituting empty (spec glossary: "Strict-undefined
rendering").  The error message carries the offending placeholder name. -/
def renderTokens : List Tok → List (String × JVal) → Except String String
  | [], _ => .ok ""
  | .text s :: rest, ctx => (renderTokens rest ctx).map (fun d => s ++ d)
  | .hole n :: rest, ctx =>
    match ctx.lookup n with
    | some v => (renderTokens rest ctx).map (fun d => pyStr v ++ d)
    | none => .error (n ++ " is undefined")

/-- An HTTP error raised by the handlers (`fastapi.HTTPException`). -/
structure HTTPException where
  status_code : Nat
  detail : String
deriving Repr, DecidableEq

/-- A Python exception escaping a handler: either an `HTTPException`
(mapped by the framework to its status code and detail) or any other
uncaught exception (mapped by the framework to a generic 500 Internal
Server Error that does not expose the message). -/
inductive PyErr where
  | http (e : HTTPException)
  | uncaught (msg : String)
deriving Repr, DecidableEq

/-- A path reference in one of the three data directories
(`data/uploads`, `data/outputs`, `data/tmp`). -/
inductive FPath where
  | out (name : String)
  | tmpF (name : String)
  | upload (name : String)
deriving Repr, DecidableEq

/-- A successful handler response: a streamed file (with media type,
download filename, and optional background cleanup task that unlinks the
named scratch file after the response is sent) or a JSON body. -/
inductive Response where
  | fileResponse (path : FPath) (media_type : String) (filename : String)
      (background : Option String)
  | jsonResponse (fields : List (String × String))
deriving Repr, DecidableEq

/-- The observable outcome of one request. -/
inductive Outcome where
  | response (r : Response)
  | httpError (e : HTTPException)
  | unhandledError (msg : String)
deriving Repr, DecidableEq

/-- Whether an outcome is a raised `HTTPException`. -/
def isHttpError : Outcome → Bool
  | .httpError _ => true
  | _ => false

/-- Whether an outcome is a successful response. -/
def isResponse : Outcome → Bool
  | .response _ => true
  | _ => false

/-- A directory modelled as an association list from file name to file
content; the same name never denotes two files, so writing removes any
previous entry first. -/
def removeFile {α : Type} (l : List (String × α)) (k : String) :
    List (String × α) :=
  l.filter (fun p => p.1 != k)

/-- Write (create or overwrite) a file in a directory. -/
def setFile {α : Type} (l : List (String × α)) (k : String) (v : α) :
    List (String × α) :=
  (k, v) :: removeFile l k

/-- The server-side file system visible to the handlers:
the single template file at `data/uploads/template.docx` (as its parsed
token sequence), the output directory (rendered text / converted file
contents by name), and the scratch directory (zip archives by name, each
holding its list of member names). -/
structure ServerState where
  template : Option (List Tok)
  outputs : List (String × String)
  tmp : List (String × List String)
deriving Repr, DecidableEq

/-- A wall-clock instant as `datetime.now()` supplies it. -/
structure Timestamp where
  year : Nat
  month : Nat
  day : Nat
  hour : Nat
  minute : Nat
  second : Nat
deriving Repr, DecidableEq

/-- Zero-pad the decimal form of `n` to width `w`
(the `%Y`/`%m`/… fields of `strftime`). -/
def padNum (w n : Nat) : String :=
  let s := toString n
  String.mk (List.replicate (w - s.length) '0') ++ s

/-- Format `datetime.now().strftime("%Y%m%d%H%M%S")`: the second-granularity
timestamp string used for artifact names. -/
def formatTS (t : Timestamp) : String :=
  padNum 4 t.year ++ padNum 2 t.month ++ padNum 2 t.day ++
    padNum 2 t.hour ++ padNum 2 t.minute ++ padNum 2 t.second

/-- Characters of `name` strictly before its last `.` (all of them when
`name` has no dot): `pathlib.Path.stem` for ordinary file names. -/
def stemData : List Char → List Char
  | [] => []
  | c :: rest =>
    if '.' ∈ rest then c :: stemData rest
    else if c = '.' then []
    else c :: stemData rest

/-- Python `pathlib.Path(name).stem` for ordinary file names. -/
def stem (s : String) : String := String.mk (stemData s.data)

/-- Python `pathlib.Path(name).with_suffix(suffix).name`: replace the last
extension (or append when there is none). -/
def withSuffix (s suffix : String) : String := stem s ++ suffix

/-- Fuel-driven core of `pyReplace` (structural recursion so that the
kernel can evaluate it on concrete inputs). -/
def replaceCharsFuel : Nat → List Char → List Char → List Char → List Char
  | 0, s, _, _ => s
  | fuel + 1, s, pat, rep =>
    match s with
    | [] => []
    | c :: rest =>
      if pat ≠ [] ∧ pat.isPrefixOf (c :: rest) then
        rep ++ replaceCharsFuel fuel ((c :: rest).drop pat.length) pat rep
      else
        c :: replaceCharsFuel fuel rest pat rep

/-- Python `s.replace(pat, rep)` for a non-empty pattern: replace every
(leftmost, non-overlapping) occurrence. -/
def pyReplace (s pat rep : String) : String :=
  String.mk (replaceCharsFuel s.data.length s.data pat.data rep.data)

/-- Python `s.lower()` (ASCII case folding suffices here). -/
def pyLower (s : String) : String := String.mk (s.data.map Char.toLower)

/-- Python `s.endswith(suffix)`. -/
def endsWithStr (s suffix : String) : Bool :=
  suffix.data.isSuffixOf s.data

/-- Python `needle in hay` for strings: substring containment. -/
def containsSub (hay needle : String) : Bool :=
  (List.range (hay.data.length + 1)).any
    (fun i => needle.data.isPrefixOf (hay.data.drop i))

/-- Test `"application/json" in content_type` (lines 86 and 166). -/
def contentTypeIsJson (ct : String) : Bool :=
  containsSub ct "application/json"

/-- The fixed template location, `str(UPLOAD_DIR / TEMPLATE_NAME)`
(rendered relative to `BASE_DIR`). -/
def TEMPLATE_PATH : String := "data/uploads/template.docx"

/-- The media type used for a rendered `.docx` response. -/
def DOCX_MEDIA_TYPE : String :=
  "application/vnd.openxmlformats-officedocument.wordprocessingml.document"

/-- Handler `upload_template` (lines 73-82): reject a file name that does not end
in `.docx` (case-insensitively) with a 400, else overwrite the template
at the fixed path and answer with JSON `{message, path}`. -/
def upload_template (st : ServerState) (filename : String)
    (content : List Tok) : Outcome × ServerState :=
  if !(endsWithStr (pyLower filename) ".docx") then
    (.httpError ⟨400, "僅接受 .docx 母版檔案"⟩, st)
  else
    (.response (.jsonResponse
        [("message", "母版已更新"), ("path", TEMPLATE_PATH)]),
      { st with template := some content })

/-- The `request_data: Any` argument of `_load_context_from_request`:
either the payload parsed from an `application/json` body (by
`request.json()`) or the form data parsed by the framework
(`request.form()`). -/
inductive ReqData where
  | jsonPayload (v : JVal)
  | formData (fields : List (String × JVal))
deriving Repr

/-- Check `hasattr(request_data, "get")` together with the mapping the `get`
calls then read: form data always has `get`; a parsed JSON payload has
`get` exactly when it is a dict. -/
def formFields : ReqData → Option (List (String × JVal))
  | .formData f => some f
  | .jsonPayload (.obj f) => some f
  | .jsonPayload _ => none

/-- Function `_load_context_from_request` (lines 85-109).  `loads` is the external
`json.loads`: it yields a value or the message of the
`json.JSONDecodeError` it raises.  Calling it on a non-string raises an
uncaught `TypeError`. -/
def load_context_from_request (loads : String → Except String JVal)
    (content_type : String) (request_data : ReqData) :
    Except PyErr (List (String × JVal) × Bool) :=
  if contentTypeIsJson content_type then
    match request_data with
    | .jsonPayload (.obj fields) =>
      let context := fields.lookup "data"
      let generate_pdf := truthy ((fields.lookup "generate_pdf").getD (.bool false))
      match context with
      | some (.obj c) => .ok (c, generate_pdf)
      | _ => .error (.http ⟨400, "data 欄位必須是 JSON 物件"⟩)
    | _ => .error (.http ⟨400, "JSON 請求格式錯誤"⟩)
  else
    match formFields request_data with
    | none => .error (.http ⟨400, "表單資料解析失敗"⟩)
    | some fields =>
      let json_text := fields.lookup "json_data"
      if truthy (json_text.getD .null) = false then
        .error (.http ⟨400, "缺少 json_data"⟩)
      else
        match json_text.getD .null with
        | .str s =>
          match loads s with
          | .error m => .error (.http ⟨400, "JSON 解析錯誤: " ++ m⟩)
          | .ok context =>
            let generate_pdf := inPdfFlagSet ((fields.lookup "generate_pdf").getD .null)
            match context with
            | .obj c => .ok (c, generate_pdf)
            | _ => .error (.http ⟨400, "JSON 根層級必須是物件"⟩)
        | _ =>
          .error (.uncaught "TypeError: the JSON object must be str, bytes or bytearray")

/-- Function `_render_docx` (lines 112-132): fail fast with a 400 when no template
file exists; render the template against the context (any substitution
failure becomes a 400 carrying the underlying message, raised before
anything is saved); on success save the document under a
second-granularity timestamped name in the output directory.  The
defensive corrupt-template branch (lines 117-120) cannot fire in this
model because the stored template is kept in parsed form. -/
def render_docx (st : ServerState) (now : Timestamp)
    (context : List (String × JVal)) :
    Except HTTPException String × ServerState :=
  match st.template with
  | none => (.error ⟨400, "尚未上傳母版 template.docx"⟩, st)
  | some tpl =>
    match renderTokens tpl context with
    | .error m => (.error ⟨400, "產生內容失敗: " ++ m⟩, st)
    | .ok doc =>
      let output_name := "output_" ++ formatTS now ++ ".docx"
      (.ok output_name,
        { st with outputs := setFile st.outputs output_name doc })

/-- One run of the external converter subprocess
(`soffice --headless --convert-to pdf <input> --outdir <outputs>`):
its exit code, captured streams, and the file it wrote into the output
directory, if any. -/
structure ConvRun where
  returncode : Int
  stderr : String
  stdout : String
  produces : Option String
deriving Repr, DecidableEq

/-- State of the output directory after the converter subprocess has run:
the file it wrote (if any) is now present. -/
def convAfterRun (st : ServerState) (pdf_name : String) (run : ConvRun) :
    ServerState :=
  match run.produces with
  | some d => { st with outputs := setFile st.outputs pdf_name d }
  | none => st

/-- Function `_convert_to_pdf` (lines 135-159): run the converter (its effect on
the output directory happens first), then fail with a 500 carrying
`stderr or stdout` on a non-zero exit, then fail with a fixed 500 when
the expected sibling `.pdf` is still absent, else return its name. -/
def convert_to_pdf (st : ServerState) (docx_name : String)
    (run : ConvRun) : Except HTTPException String × ServerState :=
  let pdf_name := withSuffix docx_name ".pdf"
  let st1 := convAfterRun st pdf_name run
  if run.returncode != 0 then
    (.error ⟨500, "PDF 轉換失敗: " ++
        (if run.stderr != "" then run.stderr else run.stdout)⟩, st1)
  else if ((st1.outputs.lookup pdf_name).isSome : Bool) = false then
    (.error ⟨500, "PDF 檔案未生成"⟩, st1)
  else
    (.ok pdf_name, st1)

/-- Lines 173-202 of `generate`, after the context has been loaded:
render; stream the `.docx` directly when no conversion was requested;
otherwise convert, bundle both artifact names into a zip in the scratch
directory, and stream the zip with a background task that unlinks it. -/
def generateAfterContext (st : ServerState) (now : Timestamp)
    (conv : ConvRun) (context : List (String × JVal))
    (generate_pdf : Bool) : Outcome × ServerState :=
  match render_docx st now context with
  | (.error e, st1) => (.httpError e, st1)
  | (.ok docx_name, st1) =>
    if generate_pdf = false then
      (.response (.fileResponse (.out docx_name) DOCX_MEDIA_TYPE
          docx_name none), st1)
    else
      match convert_to_pdf st1 docx_name conv with
      | (.error e, st2) => (.httpError e, st2)
      | (.ok pdf_name, st2) =>
        let timestamp := pyReplace (stem docx_name) "output_" ""
        let zip_name := "output_" ++ timestamp ++ ".zip"
        let st3 := { st2 with
          tmp := setFile st2.tmp zip_name [docx_name, pdf_name] }
        (.response (.fileResponse (.tmpF zip_name) "application/zip"
            zip_name (some zip_name)), st3)

/-- Handler `generate` (lines 162-202).  A JSON body is parsed by
`request.json()` with no `try` around it: a parse failure there is an
uncaught exception, not an `HTTPException`.  A non-JSON content type goes
through the framework's form parser (`parseForm`). -/
def generate (loads : String → Except String JVal)
    (parseForm : String → List (String × JVal))
    (st : ServerState) (now : Timestamp) (conv : ConvRun)
    (content_type : String) (raw : String) : Outcome × ServerState :=
  if contentTypeIsJson content_type then
    match loads raw with
    | .error m => (.unhandledError m, st)
    | .ok payload =>
      match load_context_from_request loads content_type (.jsonPayload payload) with
      | .error (.http e) => (.httpError e, st)
      | .error (.uncaught m) => (.unhandledError m, st)
      | .ok (context, generate_pdf) =>
        generateAfterContext st now conv context generate_pdf
  else
    match load_context_from_request loads content_type (.formData (parseForm raw)) with
    | .error (.http e) => (.httpError e, st)
    | .error (.uncaught m) => (.unhandledError m, st)
    | .ok (context, generate_pdf) =>
      generateAfterContext st now conv context generate_pdf

/-- Post-response semantics of `starlette.background.BackgroundTask`
(line 196): after the response has been fully sent, the scheduled cleanup
`zip_path.unlink(missing_ok=True)` removes the named scratch file.
Outcomes without a background task leave the state alone. -/
def afterResponse (st : ServerState) (o : Outcome) : ServerState :=
  match o with
  | .response (.fileResponse _ _ _ (some name)) =>
    { st with tmp := removeFile st.tmp name }
  | _ => st

/-- Whether a value is a JSON object (`isinstance(x, dict)`). -/
def isObj : JVal → Bool
  | .obj _ => true
  | _ => false

/-- The message of a failed render, for stating which message a 400
carries (empty when the render in fact succeeded). -/
def renderErrMsg (tpl : List Tok) (ctx : List (String × JVal)) : String :=
  match renderTokens tpl ctx with
  | .error m => m
  | .ok _ => ""

/-- Artifact name produced by a render at instant `now`
(`output_<timestamp>.docx`, line 129). -/
def outputName (now : Timestamp) : String :=
  "output_" ++ formatTS now ++ ".docx"

/-- Name of the converted `.pdf` sibling of the artifact of `now`. -/
def pdfName (now : Timestamp) : String :=
  withSuffix (outputName now) ".pdf"

/-- Name of the zip bundle built for the artifact of `now`
(lines 187-188). -/
def zipName (now : Timestamp) : String :=
  "output_" ++ pyReplace (stem (outputName now)) "output_" "" ++ ".zip"

/-! ## Directory lemmas -/

theorem lookup_removeFile_self {α : Type} (l : List (String × α))
    (k : String) : (removeFile l k).lookup k = none := by
  induction l with
  | nil => rfl
  | cons p t ih =>
    obtain ⟨a, b⟩ := p
    by_cases h : a = k
    · simpa [removeFile, List.filter_cons, h] using ih
    · have hne : (a != k) = true := bne_iff_ne.mpr h
      have hke : (k == a) = false := beq_eq_false_iff_ne.mpr (Ne.symm h)
      simpa [removeFile, List.filter_cons, hne, List.lookup, hke] using ih

theorem lookup_removeFile_ne {α : Type} (l : List (String × α))
    (k k' : String) (h : k' ≠ k) :
    (removeFile l k).lookup k' = l.lookup k' := by
  induction l with
  | nil => rfl
  | cons p t ih =>
    obtain ⟨a, b⟩ := p
    by_cases hp : a = k
    · have hk : (k' == a) = false :=
        beq_eq_false_iff_ne.mpr (fun he => h (he.trans hp))
      have hd : (a != k) = false := by
        simp [bne, hp]
      simpa [removeFile, List.filter_cons, hd, List.lookup, hk] using ih
    · have hne : (a != k) = true := bne_iff_ne.mpr hp
      by_cases hk : k' = a
      · simp [removeFile, List.filter_cons, hne, List.lookup, hk]
      · have hke : (k' == a) = false := beq_eq_false_iff_ne.mpr hk
        simpa [removeFile, List.filter_cons, hne, List.lookup, hke] using ih

theorem lookup_setFile_self {α : Type} (l : List (String × α))
    (k : String) (v : α) : (setFile l k v).lookup k = some v := by
  simp [setFile, List.lookup]

theorem lookup_setFile_ne {α : Type} (l : List (String × α))
    (k k' : String) (v : α) (h : k' ≠ k) :
    (setFile l k v).lookup k' = l.lookup k' := by
  have hke : (k' == k) = false := beq_eq_false_iff_ne.mpr h
  simp [setFile, List.lookup, hke, lookup_removeFile_ne l k k' h]

/-! ## String lemmas -/

theorem append_ne_of_char (a m b : String) (i : Nat)
    (hi : i < a.data.length) (hne : a.data[i]? ≠ b.data[i]?) :
    a ++ m ≠ b := by
  intro h
  apply hne
  have hd : a.data ++ m.data = b.data := by
    have h2 := congrArg String.data h
    simpa [String.data_append] using h2
  calc a.data[i]? = (a.data ++ m.data)[i]? :=
        (List.getElem?_append_left hi).symm
    _ = b.data[i]? := by rw [hd]

theorem pdf_ne_docx (a b : String) : a ++ ".pdf" ≠ b ++ ".docx" := by
  intro h
  have hd : a.data ++ ".pdf".data = b.data ++ ".docx".data := by
    have h2 := congrArg String.data h
    simpa [String.data_append] using h2
  have hP : (".pdf" : String).data = ['.', 'p', 'd', 'f'] := rfl
  have hD : (".docx" : String).data = ['.', 'd', 'o', 'c', 'x'] := rfl
  rw [hP, hD] at hd
  have hrev := congrArg List.reverse hd
  simp [List.reverse_append] at hrev

theorem append_inj_mid (p a s b : String) (h : p ++ a ++ s = p ++ b ++ s) :
    a = b := by
  have hd := congrArg String.data h
  simp only [String.data_append] at hd
  exact String.ext (List.append_cancel_left (List.append_cancel_right hd))

/-! ## Render lemmas -/

theorem renderTokens_missing_not_ok (tpl : List Tok)
    (ctx : List (String × JVal)) (p : String) (hp : p ∈ holes tpl)
    (hm : ctx.lookup p = none) : (renderTokens tpl ctx).isOk = false := by
  induction tpl with
  | nil => simp [holes] at hp
  | cons t rest ih =>
    cases t with
    | text s =>
      have hp' : p ∈ holes rest := by simpa [holes] using hp
      have hrec := ih hp'
      cases hrest : renderTokens rest ctx with
      | error m => simp [renderTokens, hrest, Except.map]; rfl
      | ok d => rw [hrest] at hrec; exact absurd hrec (by simp [Except.isOk, Except.toBool])
    | hole n =>
      by_cases hn : n = p
      · subst hn
        simp [renderTokens, hm]; rfl
      · have hp' : p ∈ holes rest := by
          rcases (by simpa [holes] using hp : p = n ∨ p ∈ holes rest) with
            he | hmem
          · exact absurd he.symm hn
          · exact hmem
        cases hl : ctx.lookup n with
        | none => simp [renderTokens, hl]; rfl
        | some v =>
          have hrec := ih hp'
          cases hrest : renderTokens rest ctx with
          | error m =>
            simp [renderTokens, hl, hrest, Except.map]; rfl
          | ok d =>
            rw [hrest] at hrec; exact absurd hrec (by simp [Except.isOk, Except.toBool])

theorem renderTokens_eq_error (tpl : List Tok) (ctx : List (String × JVal))
    (h : (renderTokens tpl ctx).isOk = false) :
    renderTokens tpl ctx = .error (renderErrMsg tpl ctx) := by
  cases hr : renderTokens tpl ctx with
  | error m => simp [renderErrMsg, hr]
  | ok d => rw [hr] at h; exact absurd h (by simp [Except.isOk, Except.toBool])

theorem render_docx_ok_name (st : ServerState) (now : Timestamp)
    (ctx : List (String × JVal)) (n : String) (s' : ServerState)
    (h : render_docx st now ctx = (.ok n, s')) :
    n = "output_" ++ formatTS now ++ ".docx" := by
  cases ht : st.template with
  | none => simp [render_docx, ht] at h
  | some tpl =>
    cases hr : renderTokens tpl ctx with
    | error m => simp [render_docx, ht, hr] at h
    | ok doc =>
      simp [render_docx, ht, hr] at h
      exact h.1.symm

/-! ## Pipeline lemmas -/

theorem afterContext_noTemplate (st : ServerState) (now : Timestamp)
    (conv : ConvRun) (context : List (String × JVal)) (gpdf : Bool)
    (hst : st.template = none) :
    generateAfterContext st now conv context gpdf
      = (.httpError ⟨400, "尚未上傳母版 template.docx"⟩, st) := by
  simp [generateAfterContext, render_docx, hst]

theorem generate_eq_afterContext (loads : String → Except String JVal)
    (parseForm : String → List (String × JVal)) (st : ServerState)
    (now : Timestamp) (conv : ConvRun) (ct raw : String)
    (context : List (String × JVal)) (gpdf : Bool)
    (h : (contentTypeIsJson ct = true ∧ ∃ payload,
            loads raw = .ok payload ∧
            load_context_from_request loads ct (.jsonPayload payload)
              = .ok (context, gpdf))
       ∨ (contentTypeIsJson ct = false ∧
            load_context_from_request loads ct (.formData (parseForm raw))
              = .ok (context, gpdf))) :
    generate loads parseForm st now conv ct raw
      = generateAfterContext st now conv context gpdf := by
  rcases h with ⟨hct, payload, hl, hctx⟩ | ⟨hct, hctx⟩
  · simp [generate, hct, hl, hctx]
  · simp [generate, hct, hctx]

theorem convert_to_pdf_error_500 (st : ServerState) (dn : String)
    (run : ConvRun) (e : HTTPException)
    (h : (convert_to_pdf st dn run).1 = .error e) : e.status_code = 500 := by
  by_cases hrc : (run.returncode != 0) = true
  · simp [convert_to_pdf, hrc] at h
    rw [← h]
  · by_cases hex : ((convAfterRun st (withSuffix dn ".pdf")
        run).outputs.lookup (withSuffix dn ".pdf")).isSome = false
    · simp [convert_to_pdf, hrc, hex] at h
      rw [← h]
    · simp [convert_to_pdf, hrc, hex] at h

theorem convert_to_pdf_snd (st : ServerState) (dn : String)
    (run : ConvRun) :
    (convert_to_pdf st dn run).2
      = convAfterRun st (withSuffix dn ".pdf") run := by
  by_cases hrc : (run.returncode != 0) = true
  · simp [convert_to_pdf, hrc]
  · by_cases hex : ((convAfterRun st (withSuffix dn ".pdf")
        run).outputs.lookup (withSuffix dn ".pdf")).isSome = false
    · simp [convert_to_pdf, hrc, hex]
    · simp [convert_to_pdf, hrc, hex]

theorem convert_preserves_docx (st : ServerState) (dn : String)
    (run : ConvRun) (h : dn ≠ withSuffix dn ".pdf") :
    (convert_to_pdf st dn run).2.outputs.lookup dn
      = st.outputs.lookup dn := by
  rw [convert_to_pdf_snd]
  cases hp : run.produces with
  | none => simp [convAfterRun, hp]
  | some d =>
    simp [convAfterRun, hp]
    exact lookup_setFile_ne st.outputs _ dn d h

theorem outputName_ne_pdfName (now : Timestamp) :
    outputName now ≠ pdfName now := by
  intro h
  exact pdf_ne_docx (stem (outputName now)) ("output_" ++ formatTS now)
    (by simpa [pdfName, withSuffix, outputName] using h.symm)

theorem render_docx_some (st : ServerState) (now : Timestamp)
    (tpl : List Tok) (context : List (String × JVal)) (doc : String)
    (htpl : st.template = some tpl)
    (hrt : renderTokens tpl context = .ok doc) :
    render_docx st now context
      = (.ok (outputName now),
         { st with outputs := setFile st.outputs (outputName now) doc }) := by
  simp [render_docx, htpl, hrt, outputName]

theorem afterContext_success (st : ServerState) (now : Timestamp)
    (conv : ConvRun) (tpl : List Tok) (context : List (String × JVal))
    (doc pdoc : String)
    (htpl : st.template = some tpl)
    (hrt : renderTokens tpl context = .ok doc)
    (hrc : conv.returncode = 0)
    (hpr : conv.produces = some pdoc) :
    generateAfterContext st now conv context true =
      (.response (.fileResponse (.tmpF (zipName now)) "application/zip"
          (zipName now) (some (zipName now))),
        { template := st.template,
          outputs := setFile (setFile st.outputs (outputName now) doc)
              (pdfName now) pdoc,
          tmp := setFile st.tmp (zipName now)
              [outputName now, pdfName now] }) := by
  have hdn := render_docx_some st now tpl context doc htpl hrt
  simp [generateAfterContext, hdn, convert_to_pdf, convAfterRun, hrc, hpr,
    lookup_setFile_self, pdfName, zipName, outputName]

/-! ## Claim C1 -/

/-- C1, counterexample: a generate request whose `application/json` body is
malformed JSON does not get a 400-class `HTTPException` at all — the parse
error of `request.json()` is uncaught (the framework then answers with a
generic 500), so the response neither is 400-class nor references the
parse failure. -/
theorem C1_counterexample :
    (generate (fun _ => Except.error "Expecting value: line 1 column 1 (char 0)")
        (fun _ => []) ⟨none, [], []⟩ ⟨2025, 1, 2, 3, 4, 5⟩ ⟨0, "", "", none⟩
        "application/json" "not json").1
      = Outcome.unhandledError "Expecting value: line 1 column 1 (char 0)"
    ∧ isHttpError
        (generate (fun _ => Except.error "Expecting value: line 1 column 1 (char 0)")
          (fun _ => []) ⟨none, [], []⟩ ⟨2025, 1, 2, 3, 4, 5⟩ ⟨0, "", "", none⟩
          "application/json" "not json").1 = false :=
  ⟨rfl, rfl⟩

/-- C1, amended: only the form path turns malformed JSON into a 400
`HTTPException` whose detail carries the parse-failure message; in the
`application/json` path the parse error escapes `request.json()` uncaught
and no 400-class error referencing the parse failure is produced. -/
theorem C1_malformed_json_paths (loads : String → Except String JVal)
    (parseForm : String → List (String × JVal)) (st : ServerState)
    (now : Timestamp) (conv : ConvRun)
    (ctJson ctForm raw fraw msg : String)
    (hcj : contentTypeIsJson ctJson = true)
    (hcf : contentTypeIsJson ctForm = false)
    (hl : loads raw = .error msg)
    (hform : (parseForm fraw).lookup "json_data" = some (.str raw))
    (hne : raw ≠ "") :
    generate loads parseForm st now conv ctJson raw
      = (.unhandledError msg, st)
    ∧ generate loads parseForm st now conv ctForm fraw
      = (.httpError ⟨400, "JSON 解析錯誤: " ++ msg⟩, st) := by
  constructor
  · simp [generate, hcj, hl]
  · simp [generate, load_context_from_request, formFields, hcf, hform,
      truthy, hne, hl]

/-- C1, witness for the amended theorem at a concrete malformed request. -/
theorem C1_malformed_json_paths_witness :
    generate (fun _ => Except.error "Expecting value: line 1 column 1 (char 0)")
        (fun _ => [("json_data", JVal.str "not json")])
        ⟨none, [], []⟩ ⟨2025, 1, 2, 3, 4, 5⟩ ⟨0, "", "", none⟩
        "application/json" "not json"
      = (.unhandledError "Expecting value: line 1 column 1 (char 0)",
         ⟨none, [], []⟩)
    ∧ generate (fun _ => Except.error "Expecting value: line 1 column 1 (char 0)")
        (fun _ => [("json_data", JVal.str "not json")])
        ⟨none, [], []⟩ ⟨2025, 1, 2, 3, 4, 5⟩ ⟨0, "", "", none⟩
        "multipart/form-data" "f"
      = (.httpError ⟨400,
          "JSON 解析錯誤: Expecting value: line 1 column 1 (char 0)"⟩,
         ⟨none, [], []⟩) :=
  C1_malformed_json_paths
    (fun _ => Except.error "Expecting value: line 1 column 1 (char 0)")
    (fun _ => [("json_data", JVal.str "not json")])
    ⟨none, [], []⟩ ⟨2025, 1, 2, 3, 4, 5⟩ ⟨0, "", "", none⟩
    "application/json" "multipart/form-data" "not json" "f"
    "Expecting value: line 1 column 1 (char 0)"
    rfl rfl rfl rfl (by decide)

/-! ## Claim C2 -/

/-- C2, counterexample: a generate request made while no template exists
can fail with an error other than the template-missing one — a form
request without `json_data` fails with the missing-field 400 instead, so
not every generate request without a template fails with a
template-missing error. -/
theorem C2_counterexample :
    (generate (fun _ => Except.error "stub") (fun _ => []) ⟨none, [], []⟩
        ⟨2025, 1, 2, 3, 4, 5⟩ ⟨0, "", "", none⟩ "multipart/form-data" "").1
      = Outcome.httpError ⟨400, "缺少 json_data"⟩
    ∧ ("缺少 json_data" : String) ≠ "尚未上傳母版 template.docx" :=
  ⟨rfl, by decide⟩

/-- C2, amended: while no template file exists, every generate request
fails — the state (in particular the output directory) is unchanged and
no success response is produced — and any request that passes context
loading fails with exactly the 400 template-missing error. -/
theorem C2_no_template_fails (loads : String → Except String JVal)
    (parseForm : String → List (String × JVal)) (st : ServerState)
    (now : Timestamp) (conv : ConvRun) (ct raw : String)
    (context : List (String × JVal)) (gpdf : Bool)
    (hst : st.template = none) :
    (generate loads parseForm st now conv ct raw).2 = st
    ∧ isResponse (generate loads parseForm st now conv ct raw).1 = false
    ∧ generateAfterContext st now conv context gpdf
        = (.httpError ⟨400, "尚未上傳母版 template.docx"⟩, st) := by
  have hgen : (generate loads parseForm st now conv ct raw).2 = st
      ∧ isResponse (generate loads parseForm st now conv ct raw).1 = false := by
    by_cases hct : contentTypeIsJson ct = true
    · cases hl : loads raw with
      | error m => simp [generate, hct, hl, isResponse]
      | ok payload =>
        cases hlc : load_context_from_request loads ct
            (.jsonPayload payload) with
        | error pe =>
          cases pe <;> simp [generate, hct, hl, hlc, isResponse]
        | ok cg =>
          obtain ⟨c, g⟩ := cg
          have ha := afterContext_noTemplate st now conv c g hst
          simp [generate, hct, hl, hlc, ha, isResponse]
    · have hct' : contentTypeIsJson ct = false := by simpa using hct
      cases hlc : load_context_from_request loads ct
          (.formData (parseForm raw)) with
      | error pe => cases pe <;> simp [generate, hct', hlc, isResponse]
      | ok cg =>
        obtain ⟨c, g⟩ := cg
        have ha := afterContext_noTemplate st now conv c g hst
        simp [generate, hct', hlc, ha, isResponse]
  exact ⟨hgen.1, hgen.2, afterContext_noTemplate st now conv context gpdf hst⟩

/-- C2, witness: concrete request with a valid JSON body and no stored
template. -/
theorem C2_no_template_fails_witness :
    (generate (fun _ => Except.ok (JVal.obj
          [("data", JVal.obj [("a", JVal.str "b")])]))
        (fun _ => []) ⟨none, [], []⟩ ⟨2025, 1, 2, 3, 4, 5⟩
        ⟨0, "", "", none⟩ "application/json" "x").2 = ⟨none, [], []⟩
    ∧ isResponse (generate (fun _ => Except.ok (JVal.obj
          [("data", JVal.obj [("a", JVal.str "b")])]))
        (fun _ => []) ⟨none, [], []⟩ ⟨2025, 1, 2, 3, 4, 5⟩
        ⟨0, "", "", none⟩ "application/json" "x").1 = false
    ∧ generateAfterContext ⟨none, [], []⟩ ⟨2025, 1, 2, 3, 4, 5⟩
        ⟨0, "", "", none⟩ [("a", JVal.str "b")] false
        = (.httpError ⟨400, "尚未上傳母版 template.docx"⟩, ⟨none, [], []⟩) :=
  C2_no_template_fails
    (fun _ => Except.ok (JVal.obj [("data", JVal.obj [("a", JVal.str "b")])]))
    (fun _ => []) ⟨none, [], []⟩ ⟨2025, 1, 2, 3, 4, 5⟩ ⟨0, "", "", none⟩
    "application/json" "x" [("a", JVal.str "b")] false rfl

/-! ## Claim C3 -/

/-- C3: for every stored template and context, a placeholder present in the
template but absent from the context makes the render step fail the
request with a 400 carrying the underlying substitution-failure message;
the render never produces a document (so nothing — in particular no empty
substitution — is written) and the state is unchanged. -/
theorem C3_strict_undefined (st : ServerState) (now : Timestamp)
    (tpl : List Tok) (ctx : List (String × JVal)) (p : String)
    (htpl : st.template = some tpl)
    (hp : p ∈ holes tpl)
    (hm : ctx.lookup p = none) :
    render_docx st now ctx
      = (.error ⟨400, "產生內容失敗: " ++ renderErrMsg tpl ctx⟩, st)
    ∧ (renderTokens tpl ctx).isOk = false := by
  have hno := renderTokens_missing_not_ok tpl ctx p hp hm
  have herr := renderTokens_eq_error tpl ctx hno
  exact ⟨by simp [render_docx, htpl, herr], hno⟩

/-- C3, witness: a template using `requester` rendered against a context
that only defines `dept_name`. -/
theorem C3_strict_undefined_witness :
    render_docx ⟨some [Tok.text "Hi ", Tok.hole "requester"], [], []⟩
        ⟨2025, 1, 2, 3, 4, 5⟩ [("dept_name", JVal.str "X")]
      = (.error ⟨400, "產生內容失敗: requester is undefined"⟩,
         ⟨some [Tok.text "Hi ", Tok.hole "requester"], [], []⟩)
    ∧ (renderTokens [Tok.text "Hi ", Tok.hole "requester"]
        [("dept_name", JVal.str "X")]).isOk = false :=
  C3_strict_undefined ⟨some [Tok.text "Hi ", Tok.hole "requester"], [], []⟩
    ⟨2025, 1, 2, 3, 4, 5⟩ [Tok.text "Hi ", Tok.hole "requester"]
    [("dept_name", JVal.str "X")] "requester" rfl (by decide) rfl

/-! ## Claim C4 -/

/-- C4: an upload whose file name does not end in `.docx`
(case-insensitively) is rejected with a 400 and the stored template is
unchanged; otherwise the template at the fixed path is overwritten with
the file contents and the response is JSON with fields `message` and
`path`, the latter being the stored template path. -/
theorem C4_upload_template (st : ServerState) (filename : String)
    (content : List Tok) :
    (endsWithStr (pyLower filename) ".docx" = false →
      upload_template st filename content
        = (.httpError ⟨400, "僅接受 .docx 母版檔案"⟩, st))
    ∧ (endsWithStr (pyLower filename) ".docx" = true →
      upload_template st filename content
        = (.response (.jsonResponse
            [("message", "母版已更新"), ("path", TEMPLATE_PATH)]),
          { st with template := some content })) := by
  constructor <;> intro h <;> simp [upload_template, h]

/-- C4, witness: one rejected and one accepted concrete upload. -/
theorem C4_upload_template_witness :
    upload_template ⟨some [Tok.hole "a"], [], []⟩ "notes.txt" []
      = (.httpError ⟨400, "僅接受 .docx 母版檔案"⟩,
         ⟨some [Tok.hole "a"], [], []⟩)
    ∧ upload_template ⟨some [Tok.hole "a"], [], []⟩ "Tpl.DOCX" [Tok.hole "b"]
      = (.response (.jsonResponse
          [("message", "母版已更新"), ("path", TEMPLATE_PATH)]),
         ⟨some [Tok.hole "b"], [], []⟩) :=
  ⟨(C4_upload_template ⟨some [Tok.hole "a"], [], []⟩ "notes.txt" []).1 rfl,
   (C4_upload_template ⟨some [Tok.hole "a"], [], []⟩ "Tpl.DOCX"
      [Tok.hole "b"]).2 rfl⟩

/-! ## Claim C5 -/

/-- C5: inside context loading, the three failure conditions — malformed
JSON (reachable there only in the form path), a non-object root
(body root in the JSON path, parsed `json_data` root in the form path),
and a missing required field (`data` in the JSON path, `json_data` in the
form path) — each produce a 400 client error, and the messages of the
three conditions are pairwise different. -/
theorem C5_distinct_context_errors
    (loads : String → Except String JVal)
    (ctJson ctForm : String)
    (fields1 fields2 fields3 pf : List (String × JVal))
    (s2 s3 msg : String) (v3 payload : JVal)
    (hcj : contentTypeIsJson ctJson = true)
    (hcf : contentTypeIsJson ctForm = false) :
    (fields1.lookup "json_data" = none →
      load_context_from_request loads ctForm (.formData fields1)
        = .error (.http ⟨400, "缺少 json_data"⟩))
    ∧ (fields2.lookup "json_data" = some (.str s2) → s2 ≠ "" →
        loads s2 = .error msg →
        load_context_from_request loads ctForm (.formData fields2)
          = .error (.http ⟨400, "JSON 解析錯誤: " ++ msg⟩))
    ∧ (fields3.lookup "json_data" = some (.str s3) → s3 ≠ "" →
        loads s3 = .ok v3 → isObj v3 = false →
        load_context_from_request loads ctForm (.formData fields3)
          = .error (.http ⟨400, "JSON 根層級必須是物件"⟩))
    ∧ (isObj payload = false →
        load_context_from_request loads ctJson (.jsonPayload payload)
          = .error (.http ⟨400, "JSON 請求格式錯誤"⟩))
    ∧ (pf.lookup "data" = none →
        load_context_from_request loads ctJson (.jsonPayload (.obj pf))
          = .error (.http ⟨400, "data 欄位必須是 JSON 物件"⟩))
    ∧ "JSON 解析錯誤: " ++ msg ≠ "缺少 json_data"
    ∧ "JSON 解析錯誤: " ++ msg ≠ "JSON 根層級必須是物件"
    ∧ "JSON 解析錯誤: " ++ msg ≠ "JSON 請求格式錯誤"
    ∧ "JSON 解析錯誤: " ++ msg ≠ "data 欄位必須是 JSON 物件"
    ∧ ("缺少 json_data" : String) ≠ "JSON 根層級必須是物件"
    ∧ ("缺少 json_data" : String) ≠ "JSON 請求格式錯誤"
    ∧ ("data 欄位必須是 JSON 物件" : String) ≠ "JSON 根層級必須是物件"
    ∧ ("data 欄位必須是 JSON 物件" : String) ≠ "JSON 請求格式錯誤" := by
  refine ⟨?_, ?_, ?_, ?_, ?_, ?_, ?_, ?_, ?_, by decide, by decide,
    by decide, by decide⟩
  · intro h1
    simp [load_context_from_request, formFields, hcf, h1, truthy]
  · intro h2 hs2 hl2
    simp [load_context_from_request, formFields, hcf, h2, truthy, hs2, hl2]
  · intro h3 hs3 hl3 hv3
    cases v3 <;>
      simp_all [load_context_from_request, formFields, hcf, truthy, isObj]
  · intro h4
    cases payload <;> simp_all [load_context_from_request, hcj, isObj]
  · intro h5
    simp [load_context_from_request, hcj, h5]
  · exact append_ne_of_char _ msg _ 0 (by decide) (by decide)
  · exact append_ne_of_char _ msg _ 5 (by decide) (by decide)
  · exact append_ne_of_char _ msg _ 5 (by decide) (by decide)
  · exact append_ne_of_char _ msg _ 0 (by decide) (by decide)

/-- C5, witness: one concrete request for each of the five error shapes,
and the parse-error message differs from the missing-field message. -/
theorem C5_distinct_context_errors_witness :
    load_context_from_request
        (fun s => if s = "nope" then Except.error "boom"
          else Except.ok (JVal.arr []))
        "multipart/form-data" (.formData [])
      = .error (.http ⟨400, "缺少 json_data"⟩)
    ∧ load_context_from_request
        (fun s => if s = "nope" then Except.error "boom"
          else Except.ok (JVal.arr []))
        "multipart/form-data" (.formData [("json_data", JVal.str "nope")])
      = .error (.http ⟨400, "JSON 解析錯誤: boom"⟩)
    ∧ load_context_from_request
        (fun s => if s = "nope" then Except.error "boom"
          else Except.ok (JVal.arr []))
        "multipart/form-data" (.formData [("json_data", JVal.str "[]")])
      = .error (.http ⟨400, "JSON 根層級必須是物件"⟩)
    ∧ load_context_from_request
        (fun s => if s = "nope" then Except.error "boom"
          else Except.ok (JVal.arr []))
        "application/json" (.jsonPayload (JVal.arr []))
      = .error (.http ⟨400, "JSON 請求格式錯誤"⟩)
    ∧ load_context_from_request
        (fun s => if s = "nope" then Except.error "boom"
          else Except.ok (JVal.arr []))
        "application/json" (.jsonPayload (JVal.obj []))
      = .error (.http ⟨400, "data 欄位必須是 JSON 物件"⟩)
    ∧ ("JSON 解析錯誤: boom" : String) ≠ "缺少 json_data" := by
  have h := C5_distinct_context_errors
    (fun s => if s = "nope" then Except.error "boom"
      else Except.ok (JVal.arr []))
    "application/json" "multipart/form-data"
    [] [("json_data", JVal.str "nope")] [("json_data", JVal.str "[]")] []
    "nope" "[]" "boom" (JVal.arr []) (JVal.arr []) rfl rfl
  exact ⟨h.1 rfl, h.2.1 rfl (by decide) rfl, h.2.2.1 rfl (by decide) rfl rfl,
    h.2.2.2.1 rfl, h.2.2.2.2.1 rfl, h.2.2.2.2.2.1⟩

/-! ## Claim C6 -/

/-- C6: a generate request with conversion requested that succeeds
responds with a zip archive from the scratch directory holding exactly
two members — the rendered `.docx` artifact and its `.pdf` sibling, under
their artifact names — the zip is removed from the scratch directory once
the response completes, and both artifacts remain in the output
directory. -/
theorem C6_zip_bundle_cleanup (loads : String → Except String JVal)
    (parseForm : String → List (String × JVal)) (st : ServerState)
    (now : Timestamp) (conv : ConvRun) (ct raw : String)
    (tpl : List Tok) (context : List (String × JVal)) (doc pdoc : String)
    (hpipe : (contentTypeIsJson ct = true ∧ ∃ payload,
          loads raw = .ok payload ∧
          load_context_from_request loads ct (.jsonPayload payload)
            = .ok (context, true))
      ∨ (contentTypeIsJson ct = false ∧
          load_context_from_request loads ct (.formData (parseForm raw))
            = .ok (context, true)))
    (htpl : st.template = some tpl)
    (hrt : renderTokens tpl context = .ok doc)
    (hrc : conv.returncode = 0)
    (hpr : conv.produces = some pdoc) :
    generate loads parseForm st now conv ct raw
      = (.response (.fileResponse (.tmpF (zipName now)) "application/zip"
            (zipName now) (some (zipName now))),
         { template := st.template,
           outputs := setFile (setFile st.outputs (outputName now) doc)
               (pdfName now) pdoc,
           tmp := setFile st.tmp (zipName now)
               [outputName now, pdfName now] })
    ∧ (setFile st.tmp (zipName now)
          [outputName now, pdfName now]).lookup (zipName now)
        = some [outputName now, pdfName now]
    ∧ pdfName now = withSuffix (outputName now) ".pdf"
    ∧ (afterResponse (generate loads parseForm st now conv ct raw).2
          (generate loads parseForm st now conv ct raw).1).tmp.lookup
          (zipName now) = none
    ∧ (afterResponse (generate loads parseForm st now conv ct raw).2
          (generate loads parseForm st now conv ct raw).1).outputs.lookup
          (outputName now) = some doc
    ∧ (afterResponse (generate loads parseForm st now conv ct raw).2
          (generate loads parseForm st now conv ct raw).1).outputs.lookup
          (pdfName now) = some pdoc := by
  have hg := generate_eq_afterContext loads parseForm st now conv ct raw
    context true hpipe
  have hs := afterContext_success st now conv tpl context doc pdoc
    htpl hrt hrc hpr
  have heq := hg.trans hs
  refine ⟨heq, lookup_setFile_self _ _ _, rfl, ?_, ?_, ?_⟩
  · simp only [heq]
    simp [afterResponse, lookup_removeFile_self]
  · simp only [heq]
    simp only [afterResponse]
    rw [lookup_setFile_ne _ _ _ _ (outputName_ne_pdfName now)]
    exact lookup_setFile_self _ _ _
  · simp only [heq]
    simp only [afterResponse]
    exact lookup_setFile_self _ _ _

/-- C6, witness: a concrete successful conversion request. -/
theorem C6_zip_bundle_cleanup_witness :
    generate (fun _ => Except.ok (JVal.obj
          [("data", JVal.obj [("k", JVal.str "v")]),
           ("generate_pdf", JVal.bool true)]))
        (fun _ => []) ⟨some [Tok.hole "k"], [], []⟩ ⟨2025, 1, 2, 3, 4, 5⟩
        ⟨0, "", "", some "PDF"⟩ "application/json" "r"
      = (.response (.fileResponse (.tmpF "output_20250102030405.zip")
            "application/zip" "output_20250102030405.zip"
            (some "output_20250102030405.zip")),
         ⟨some [Tok.hole "k"],
          [("output_20250102030405.pdf", "PDF"),
           ("output_20250102030405.docx", "v")],
          [("output_20250102030405.zip",
            ["output_20250102030405.docx", "output_20250102030405.pdf"])]⟩)
    ∧ (afterResponse
          (generate (fun _ => Except.ok (JVal.obj
              [("data", JVal.obj [("k", JVal.str "v")]),
               ("generate_pdf", JVal.bool true)]))
            (fun _ => []) ⟨some [Tok.hole "k"], [], []⟩ ⟨2025, 1, 2, 3, 4, 5⟩
            ⟨0, "", "", some "PDF"⟩ "application/json" "r").2
          (generate (fun _ => Except.ok (JVal.obj
              [("data", JVal.obj [("k", JVal.str "v")]),
               ("generate_pdf", JVal.bool true)]))
            (fun _ => []) ⟨some [Tok.hole "k"], [], []⟩ ⟨2025, 1, 2, 3, 4, 5⟩
            ⟨0, "", "", some "PDF"⟩ "application/json" "r").1).tmp.lookup
          "output_20250102030405.zip" = none
    ∧ (afterResponse
          (generate (fun _ => Except.ok (JVal.obj
              [("data", JVal.obj [("k", JVal.str "v")]),
               ("generate_pdf", JVal.bool true)]))
            (fun _ => []) ⟨some [Tok.hole "k"], [], []⟩ ⟨2025, 1, 2, 3, 4, 5⟩
            ⟨0, "", "", some "PDF"⟩ "application/json" "r").2
          (generate (fun _ => Except.ok (JVal.obj
              [("data", JVal.obj [("k", JVal.str "v")]),
               ("generate_pdf", JVal.bool true)]))
            (fun _ => []) ⟨some [Tok.hole "k"], [], []⟩ ⟨2025, 1, 2, 3, 4, 5⟩
            ⟨0, "", "", some "PDF"⟩ "application/json" "r").1).outputs.lookup
          "output_20250102030405.docx" = some "v" := by
  have h := C6_zip_bundle_cleanup
    (fun _ => Except.ok (JVal.obj
        [("data", JVal.obj [("k", JVal.str "v")]),
         ("generate_pdf", JVal.bool true)]))
    (fun _ => []) ⟨some [Tok.hole "k"], [], []⟩ ⟨2025, 1, 2, 3, 4, 5⟩
    ⟨0, "", "", some "PDF"⟩ "application/json" "r"
    [Tok.hole "k"] [("k", JVal.str "v")] "v" "PDF"
    (Or.inl ⟨rfl, JVal.obj [("data", JVal.obj [("k", JVal.str "v")]),
        ("generate_pdf", JVal.bool true)], rfl, rfl⟩)
    rfl rfl rfl rfl
  exact ⟨h.1, h.2.2.2.1, h.2.2.2.2.1⟩

/-! ## Claim C7 -/

/-- C7, counterexample: when the converter exits with status zero but the
expected output file is absent, the request does fail with a 500, but its
message is the fixed string and carries neither the stderr nor the stdout
of the tool. -/
theorem C7_counterexample :
    (convert_to_pdf ⟨none, [], []⟩ "output_1.docx"
        ⟨0, "boom", "meow", none⟩).1
      = .error ⟨500, "PDF 檔案未生成"⟩
    ∧ containsSub "PDF 檔案未生成" "boom" = false
    ∧ containsSub "PDF 檔案未生成" "meow" = false :=
  ⟨rfl, by decide, by decide⟩

/-- C7, amended: a non-zero converter exit status yields a 500 whose
message carries `stderr or stdout`; a zero exit status with the expected
output file still absent yields a 500 with a fixed message that carries
no diagnostic output. -/
theorem C7_convert_failures (st : ServerState) (dn : String)
    (run : ConvRun) :
    (run.returncode ≠ 0 →
      (convert_to_pdf st dn run).1
        = .error ⟨500, "PDF 轉換失敗: " ++
            (if run.stderr != "" then run.stderr else run.stdout)⟩)
    ∧ (run.returncode = 0 → run.produces = none →
        st.outputs.lookup (withSuffix dn ".pdf") = none →
        (convert_to_pdf st dn run).1 = .error ⟨500, "PDF 檔案未生成"⟩) := by
  constructor
  · intro h
    have hb : (run.returncode != 0) = true := by simpa using h
    simp [convert_to_pdf, hb]
  · intro h0 hp hl
    have hb : (run.returncode != 0) = false := by simp [h0]
    simp [convert_to_pdf, hb, convAfterRun, hp, hl]

/-- C7, witness: one failed-exit and one missing-output conversion. -/
theorem C7_convert_failures_witness :
    (convert_to_pdf ⟨none, [], []⟩ "output_2.docx"
        ⟨1, "err", "out", none⟩).1
      = .error ⟨500, "PDF 轉換失敗: err"⟩
    ∧ (convert_to_pdf ⟨none, [], []⟩ "output_2.docx" ⟨0, "", "", none⟩).1
      = .error ⟨500, "PDF 檔案未生成"⟩ :=
  ⟨(C7_convert_failures ⟨none, [], []⟩ "output_2.docx"
      ⟨1, "err", "out", none⟩).1 (by decide),
   (C7_convert_failures ⟨none, [], []⟩ "output_2.docx"
      ⟨0, "", "", none⟩).2 rfl rfl rfl⟩

/-! ## Claim C8 -/

/-- C8, counterexample: artifact names have only second granularity — two
successful renders within the same second produce the same
`output_<timestamp>.docx` name, and the second overwrites the first
artifact. -/
theorem C8_counterexample :
    (render_docx ⟨some [Tok.hole "n"], [], []⟩ ⟨2025, 1, 2, 3, 4, 5⟩
        [("n", JVal.str "A")]).1
      = .ok "output_20250102030405.docx"
    ∧ (render_docx (render_docx ⟨some [Tok.hole "n"], [], []⟩
          ⟨2025, 1, 2, 3, 4, 5⟩ [("n", JVal.str "A")]).2
        ⟨2025, 1, 2, 3, 4, 5⟩ [("n", JVal.str "B")]).1
      = .ok "output_20250102030405.docx"
    ∧ (render_docx (render_docx ⟨some [Tok.hole "n"], [], []⟩
          ⟨2025, 1, 2, 3, 4, 5⟩ [("n", JVal.str "A")]).2
        ⟨2025, 1, 2, 3, 4, 5⟩ [("n", JVal.str "B")]).2.outputs
      = [("output_20250102030405.docx", "B")] :=
  ⟨rfl, rfl, rfl⟩

/-- C8, amended: every successful render is named
`output_<timestamp>.docx` from its second-granularity timestamp, and two
successful renders get different names exactly when their formatted
timestamps differ — renders in the same second collide (and overwrite, as
the counterexample shows). -/
theorem C8_timestamp_names (st1 st2 s1 s2 : ServerState)
    (t1 t2 : Timestamp) (ctx1 ctx2 : List (String × JVal)) (n1 n2 : String)
    (h1 : render_docx st1 t1 ctx1 = (.ok n1, s1))
    (h2 : render_docx st2 t2 ctx2 = (.ok n2, s2)) :
    n1 = "output_" ++ formatTS t1 ++ ".docx"
    ∧ n2 = "output_" ++ formatTS t2 ++ ".docx"
    ∧ (formatTS t1 ≠ formatTS t2 → n1 ≠ n2) := by
  have e1 := render_docx_ok_name st1 t1 ctx1 n1 s1 h1
  have e2 := render_docx_ok_name st2 t2 ctx2 n2 s2 h2
  refine ⟨e1, e2, ?_⟩
  intro hts hne
  refine hts (append_inj_mid "output_" (formatTS t1) ".docx" (formatTS t2)
    ?_)
  rw [← e1, ← e2]
  exact hne

/-- C8, witness: two concrete renders one second apart. -/
theorem C8_timestamp_names_witness :
    "output_20250102030405.docx"
      = "output_" ++ formatTS ⟨2025, 1, 2, 3, 4, 5⟩ ++ ".docx"
    ∧ ("output_20250102030405.docx" : String)
      ≠ "output_20250102030406.docx" := by
  have h := C8_timestamp_names
    ⟨some [Tok.hole "n"], [], []⟩ ⟨some [Tok.hole "n"], [], []⟩
    ⟨some [Tok.hole "n"], [("output_20250102030405.docx", "A")], []⟩
    ⟨some [Tok.hole "n"], [("output_20250102030406.docx", "A")], []⟩
    ⟨2025, 1, 2, 3, 4, 5⟩ ⟨2025, 1, 2, 3, 4, 6⟩
    [("n", JVal.str "A")] [("n", JVal.str "A")]
    "output_20250102030405.docx" "output_20250102030406.docx" rfl rfl
  exact ⟨h.1, h.2.2 (by decide)⟩

/-! ## Claim C9 -/

/-- C9: the two submission paths normalize `generate_pdf` differently.
In the `application/json` path the flag is the Python truthiness of the
field (so the string `"false"`, like any non-empty string, requests
conversion) with a missing field defaulting to false; in the form path
the flag is membership in the set of `"on"`, `True`, `"true"` under
Python equality, so other strings such as `"yes"` or `"True"` do not
request conversion. -/
theorem C9_flag_normalization (loads : String → Except String JVal)
    (ctJson ctForm : String)
    (fields ffields c1 c2 : List (String × JVal)) (s fs : String)
    (hcj : contentTypeIsJson ctJson = true)
    (hcf : contentTypeIsJson ctForm = false) :
    (fields.lookup "data" = some (.obj c1) →
      load_context_from_request loads ctJson (.jsonPayload (.obj fields))
        = .ok (c1,
            truthy ((fields.lookup "generate_pdf").getD (.bool false))))
    ∧ truthy (.str "false") = true
    ∧ (s ≠ "" → truthy (.str s) = true)
    ∧ (fields.lookup "generate_pdf" = none →
        truthy ((fields.lookup "generate_pdf").getD (.bool false)) = false)
    ∧ (ffields.lookup "json_data" = some (.str fs) → fs ≠ "" →
        loads fs = .ok (.obj c2) →
        load_context_from_request loads ctForm (.formData ffields)
          = .ok (c2,
              inPdfFlagSet ((ffields.lookup "generate_pdf").getD .null)))
    ∧ inPdfFlagSet (.str "on") = true
    ∧ inPdfFlagSet (.str "true") = true
    ∧ inPdfFlagSet (.bool true) = true
    ∧ inPdfFlagSet (.str "yes") = false
    ∧ inPdfFlagSet (.str "True") = false
    ∧ inPdfFlagSet .null = false := by
  refine ⟨?_, by decide, ?_, ?_, ?_, by decide, by decide, by decide,
    by decide, by decide, by decide⟩
  · intro hd
    simp [load_context_from_request, hcj, hd]
  · intro hs
    simp [truthy, hs]
  · intro hn
    simp [hn, truthy]
  · intro hjd hfs hl
    simp [load_context_from_request, formFields, hcf, hjd, truthy, hfs, hl]

/-- C9, witness: a JSON-path request whose `generate_pdf` is the string
`"false"` requests conversion, while a form-path request whose field is
the string `"True"` does not. -/
theorem C9_flag_normalization_witness :
    load_context_from_request
        (fun _ => Except.ok (JVal.obj [("k", JVal.str "v")]))
        "application/json"
        (.jsonPayload (JVal.obj
          [("data", JVal.obj []), ("generate_pdf", JVal.str "false")]))
      = .ok ([], true)
    ∧ load_context_from_request
        (fun _ => Except.ok (JVal.obj [("k", JVal.str "v")]))
        "multipart/form-data"
        (.formData [("json_data", JVal.str "j"),
          ("generate_pdf", JVal.str "True")])
      = .ok ([("k", JVal.str "v")], false) := by
  have h := C9_flag_normalization
    (fun _ => Except.ok (JVal.obj [("k", JVal.str "v")]))
    "application/json" "multipart/form-data"
    [("data", JVal.obj []), ("generate_pdf", JVal.str "false")]
    [("json_data", JVal.str "j"), ("generate_pdf", JVal.str "True")]
    [] [("k", JVal.str "v")] "x" "j" rfl rfl
  exact ⟨h.1 rfl, h.2.2.2.2.1 rfl (by decide) rfl⟩

/-! ## Claim C10 -/

/-- C10: the render is atomic on substitution failure — a failing
substitution raises the 400 before anything is saved, leaving the state
unchanged — whereas a conversion failure after a successful render leaves
the already-saved `.docx` artifact in the output directory (and surfaces
as a 500). -/
theorem C10_render_atomic (st : ServerState) (now : Timestamp)
    (conv : ConvRun) (tpl : List Tok)
    (ctx ctx2 : List (String × JVal)) (m doc : String) (e : HTTPException)
    (htpl : st.template = some tpl) :
    (renderTokens tpl ctx = .error m →
      render_docx st now ctx
        = (.error ⟨400, "產生內容失敗: " ++ m⟩, st))
    ∧ (renderTokens tpl ctx2 = .ok doc →
        (convert_to_pdf
            { st with outputs := setFile st.outputs (outputName now) doc }
            (outputName now) conv).1 = .error e →
        generateAfterContext st now conv ctx2 true
          = (.httpError e,
             (convert_to_pdf
                { st with
                  outputs := setFile st.outputs (outputName now) doc }
                (outputName now) conv).2)
        ∧ e.status_code = 500
        ∧ (generateAfterContext st now conv ctx2 true).2.outputs.lookup
            (outputName now) = some doc) := by
  constructor
  · intro hr
    simp [render_docx, htpl, hr]
  · intro hok hfail
    have hdn := render_docx_some st now tpl ctx2 doc htpl hok
    have e500 := convert_to_pdf_error_500 _ _ _ _ hfail
    have hpres := convert_preserves_docx
      { st with outputs := setFile st.outputs (outputName now) doc }
      (outputName now) conv (outputName_ne_pdfName now)
    rcases hcp : convert_to_pdf
        { st with outputs := setFile st.outputs (outputName now) doc }
        (outputName now) conv with ⟨r, st2⟩
    have hr : r = Except.error e := by
      have hf := hfail
      rw [hcp] at hf
      exact hf
    subst hr
    rw [hcp] at hpres
    refine ⟨by simp [generateAfterContext, hdn, hcp], e500, ?_⟩
    have hgoal : (generateAfterContext st now conv ctx2 true).2 = st2 := by
      simp [generateAfterContext, hdn, hcp]
    rw [hgoal]
    rw [show st2 = ((Except.error e : Except HTTPException String),
        st2).2 from rfl, hpres]
    exact lookup_setFile_self _ _ _

/-- C10, witness: a failing substitution leaves the state untouched, and
a failing conversion after a successful render leaves the saved `.docx`
in place. -/
theorem C10_render_atomic_witness :
    render_docx ⟨some [Tok.hole "n"], [], []⟩ ⟨2025, 1, 2, 3, 4, 5⟩ []
      = (.error ⟨400, "產生內容失敗: n is undefined"⟩,
         ⟨some [Tok.hole "n"], [], []⟩)
    ∧ generateAfterContext ⟨some [Tok.hole "n"], [], []⟩
        ⟨2025, 1, 2, 3, 4, 5⟩ ⟨1, "err", "", none⟩ [("n", JVal.str "A")]
        true
      = (.httpError ⟨500, "PDF 轉換失敗: err"⟩,
         ⟨some [Tok.hole "n"], [("output_20250102030405.docx", "A")], []⟩)
    ∧ (generateAfterContext ⟨some [Tok.hole "n"], [], []⟩
        ⟨2025, 1, 2, 3, 4, 5⟩ ⟨1, "err", "", none⟩ [("n", JVal.str "A")]
        true).2.outputs.lookup "output_20250102030405.docx"
      = some "A" := by
  have h := C10_render_atomic ⟨some [Tok.hole "n"], [], []⟩
    ⟨2025, 1, 2, 3, 4, 5⟩ ⟨1, "err", "", none⟩ [Tok.hole "n"]
    [] [("n", JVal.str "A")] "n is undefined" "A"
    ⟨500, "PDF 轉換失敗: err"⟩ rfl
  exact ⟨h.1 rfl, (h.2 rfl rfl).1, (h.2 rfl rfl).2.2⟩

end App
